import Mathlib

/-!
Shallow embedding of `zvt/contract/recorder.py` (FinanceCenter).

Instants are modelled as integers counting minutes since an epoch, so a day
is 1440 minutes; `pandas.Timestamp.replace(hour=0, minute=0, second=0)`
becomes truncation to the enclosing day boundary, and `Timedelta.days`
becomes floor division by 1440 (Python's `timedelta.days` floors toward
negative infinity, as does `Int.fdiv`).

External helpers imported from `zvt.utils` (not part of `src/`) are taken
as parameters of the embedded functions; their contracts are stated where a
claim needs them.
-/

/-- One day in model minutes. -/
def minutesPerDay : Int := 1440

/-- `now.replace(hour=0, minute=0, second=0)`: truncate an instant to the
start of its day. -/
def midnight (t : Int) : Int := t.fdiv minutesPerDay * minutesPerDay

/-- An entity row: `entity.id`, `entity.code`, `entity.name`,
`entity.timestamp` (the listing timestamp, `None` when absent). -/
structure Entity where
  id : String
  code : String
  name : String
  timestamp : Option Int
deriving Repr, DecidableEq

/-- A raw provider payload: the source time field
(`original_data[self.get_original_time_field()]`, an unparsed string) plus
the remaining payload fields. -/
structure RawPayload where
  timeField : String
  fields : List (String × String)
deriving Repr, DecidableEq

/-- Derived record identity.  `derived e t` models the string
`"{entity.id}_{time_str}"` built by `generate_domain_id`; `suffixed i tok`
models `"{id}_{uuid.uuid1()}"` where `tok` stands for the fresh unique
token produced by `uuid.uuid1()` (fresh tokens are modelled by a counter
threaded through the batch loop). -/
inductive RecId where
  | derived (entityId : String) (timeStr : String)
  | suffixed (orig : RecId) (token : Nat)
deriving Repr, DecidableEq

/-- A persistable record produced by `generate_domain`. -/
structure DomainRecord where
  id : RecId
  code : String
  name : Option String
  entityId : String
  timestamp : Option Int
  fields : List (String × String)
deriving Repr, DecidableEq

/-- One element of the list returned by `record`: either a raw payload or
an already-built `data_schema` instance (the `isinstance` fast path in
`generate_domain`). -/
inductive RawInput where
  | raw (p : RawPayload)
  | domain (r : DomainRecord)
deriving Repr, DecidableEq

/-- Recorder configuration relevant to reconciliation:
`force_update`, `fix_duplicate_way`, whether `'name'` is among the schema
columns, and the external helpers `to_pd_timestamp` (fallible parse,
`none` models a raised exception) and `to_time_str` (formatting used for
id derivation). -/
structure RecConfig where
  forceUpdate : Bool
  fixDuplicateWay : String
  hasNameColumn : Bool
  parseTs : String → Option Int
  timeStr : String → String

/-- `generate_domain_id`: `"{}_{}".format(entity.id, to_time_str(...))`. -/
def generate_domain_id (cfg : RecConfig) (entity : Entity) (p : RawPayload) : RecId :=
  RecId.derived entity.id (cfg.timeStr p.timeField)

/-- Modelled from the spec: `fill_domain_from_dict` (zvt.utils.utils, not
in `src/`) overlays the mapped source fields onto the record in place. -/
def fill_domain_from_dict (r : DomainRecord) (p : RawPayload) : DomainRecord :=
  { r with fields := p.fields }

/-- `TimeSeriesDataRecorder.generate_domain`.  The store is the persisted
table keyed by record id (`get_data` filtered on `data_schema.id`).
Returns `(got_new_data, domain_item)`; `domain_item = none` models the
`return got_new_data, None` skip path.  On a timestamp parse failure the
record is still constructed, with `timestamp = none`. -/
def generate_domain (cfg : RecConfig) (store : RecId → Option DomainRecord)
    (entity : Entity) (od : RawInput) : Bool × Option DomainRecord :=
  match od with
  | RawInput.domain r => (true, some r)
  | RawInput.raw p =>
    let theId := generate_domain_id cfg entity p
    match store theId with
    | some item =>
      if !cfg.forceUpdate then (false, none)
      else (false, some (fill_domain_from_dict item p))
    | none =>
      let timestamp := cfg.parseTs p.timeField
      let domainItem : DomainRecord :=
        { id := theId
          code := entity.code
          name := if cfg.hasNameColumn then some entity.name else none
          entityId := entity.id
          timestamp := timestamp
          fields := [] }
      (true, some (fill_domain_from_dict domainItem p))

/-- The `for original_item in original_list` loop body of
`process_duplicate`, with the accumulated `domain_list`, the
`all_duplicated` flag and the fresh-token counter threaded through.
Returns `(entity_finished, all_duplicated, persisted domain_list)`; the
early `return True, all_duplicated` abort persists nothing. -/
def pdLoop (cfg : RecConfig) (store : RecId → Option DomainRecord) (entity : Entity) :
    List RawInput → List DomainRecord → Bool → Nat → Bool × Bool × List DomainRecord
  | [], domainList, allDuplicated, _ => (false, allDuplicated, domainList)
  | od :: rest, domainList, allDuplicated, token =>
    let gd := generate_domain cfg store entity od
    let allDuplicated := if gd.1 then false else allDuplicated
    match gd.2 with
    | none => pdLoop cfg store entity rest domainList allDuplicated token
    | some domainItem =>
      if !(domainList.filter (fun item => item.id == domainItem.id)).isEmpty then
        if cfg.fixDuplicateWay ≠ "add" then (true, allDuplicated, [])
        else
          pdLoop cfg store entity rest
            (domainList ++ [{ domainItem with id := RecId.suffixed domainItem.id token }])
            allDuplicated (token + 1)
      else pdLoop cfg store entity rest (domainList ++ [domainItem]) allDuplicated token

/-- `TimeSeriesDataRecorder.process_duplicate`.  Result components:
`entity_finished`, `all_duplicated`, and the `domain_list` handed to
`persist` (empty means nothing written this batch). -/
def process_duplicate (cfg : RecConfig) (store : RecId → Option DomainRecord)
    (entity : Entity) (originalList : List RawInput) : Bool × Bool × List DomainRecord :=
  if originalList.isEmpty then (false, true, [])
  else pdLoop cfg store entity originalList [] true 0

/-- Completion-detector configuration: `real_time`, `close_hour`,
`close_minute` (the code guards on `is not None`). -/
structure RTConfig where
  realTime : Bool
  closeHour : Option Int
  closeMinute : Option Int
deriving Repr, DecidableEq

/-- `TimeSeriesDataRecorder.process_realtime` restricted to its decision
(the `on_finish_entity` side call carries no data).  `originalListEmpty`
models `not original_list`; `nowHour`/`nowMinute` are `now.hour` and
`now.minute`. -/
def process_realtime (cfg : RTConfig) (originalListEmpty allDuplicated : Bool)
    (nowHour nowMinute : Int) : Bool :=
  if originalListEmpty || allDuplicated then
    if !cfg.realTime then true
    else
      match cfg.closeHour, cfg.closeMinute with
      | some closeHour, some closeMinute =>
        if nowHour ≥ closeHour then
          if nowMinute - closeMinute ≥ 5 then true else false
        else false
      | _, _ => false
  else false

/-- The five components returned by every
`evaluate_start_end_size_timestamps` variant:
`(start_timestamp, end_timestamp, trade, size, timestamps)`. -/
structure EvalResult where
  start : Option Int
  endTs : Option Int
  trade : Option Int
  size : Int
  timestamps : Option (List Int)
deriving Repr, DecidableEq

/-- Window configuration of `TimeSeriesDataRecorder`. -/
structure TSConfig where
  startTimestamp : Option Int
  endTimestamp : Option Int
  defaultSize : Int
deriving Repr, DecidableEq

/-- `TimeSeriesDataRecorder.evaluate_start_end_size_timestamps` after the
listing-timestamp guard.  `latestSavedRecord` is the timestamp of the
newest persisted record when one exists (`get_latest_saved_record`). -/
def ts_evaluate_rest (cfg : TSConfig) (now : Int) (entity : Entity)
    (latestSavedRecord : Option Int) (tradeDay : List Int) : EvalResult :=
  let latestTimestamp :=
    match latestSavedRecord with
    | some t => some t
    | none => entity.timestamp
  match latestTimestamp with
  | none =>
    { start := cfg.startTimestamp, endTs := cfg.endTimestamp, trade := tradeDay.head?,
      size := cfg.defaultSize, timestamps := none }
  | some lt0 =>
    let lt1 :=
      match cfg.startTimestamp with
      | some st => max lt0 st
      | none => lt0
    let size : Int :=
      match cfg.endTimestamp with
      | some et => if lt1 ≥ et then 0 else cfg.defaultSize
      | none => (midnight now - lt1).fdiv minutesPerDay
    { start := some lt1, endTs := cfg.endTimestamp, trade := tradeDay.head?,
      size := size, timestamps := none }

/-- `TimeSeriesDataRecorder.evaluate_start_end_size_timestamps`. -/
def ts_evaluate (cfg : TSConfig) (now : Int) (entity : Entity)
    (latestSavedRecord : Option Int) (tradeDay : List Int) : EvalResult :=
  match entity.timestamp with
  | some listed =>
    if listed ≥ now then
      { start := some listed, endTs := none, trade := tradeDay.head?,
        size := 0, timestamps := none }
    else ts_evaluate_rest cfg now entity latestSavedRecord tradeDay
  | none => ts_evaluate_rest cfg now entity latestSavedRecord tradeDay

/-- A persisted row as seen by `FixedCycleDataRecorder`: id plus the
ordering timestamp. -/
structure FRec where
  id : String
  timestamp : Int
deriving Repr, DecidableEq

/-- Modelled from the spec: `is_in_same_interval` (zvt.utils.time_utils,
not in `src/`) holds iff the two timestamps fall in the same calendar
interval bucket for the configured granularity; the bucket map for the
level is abstracted as the parameter `bucket`. -/
def is_in_same_interval (bucket : Int → Int) (t1 t2 : Int) : Bool :=
  bucket t1 == bucket t2

/-- `FixedCycleDataRecorder.get_latest_saved_record`.  `stored` is the
persisted table ordered descending by timestamp; `get_data(limit=2)` is
its two-element prefix.  Returns `(deleted records, returned record)`:
the delete list models the `session.delete` calls issued. -/
def fc_get_latest_saved_record (bucket : Int → Int) (stored : List FRec) :
    List FRec × Option FRec :=
  match stored.take 2 with
  | [] => ([], none)
  | [r] => ([], some r)
  | r0 :: r1 :: _ =>
    if is_in_same_interval bucket r0.timestamp r1.timestamp
    then ([r0], some r1)
    else ([], some r0)

/-- External helpers used by the fixed-cycle window evaluation
(`zvt.utils.time_utils`, not in `src/`): `count_mins_before_close_time`,
`is_same_date`, `date_delta`, `evaluate_size_from_timestamp` (the last
applied to the start timestamp, `now` and the trade-day suffix). -/
structure FCExt where
  countMinsBeforeCloseTime : Int → Int → Int → Int
  isSameDate : Int → Int → Bool
  dateDelta : Int → Int → Int
  evaluateSizeFromTimestamp : Int → Int → List Int → Int

/-- `FixedCycleDataRecorder.evaluate_start_end_size_timestamps` after the
listing-timestamp guard.  `stockDetail` maps an entity id to its
`end_date` when the `stock_detail` frame has the row (lookup failure makes
`days = -1`); a failed `trade_day.index(end_date)` leaves the index
unchanged (both `except` branches). -/
def fc_evaluate_rest (ext : FCExt) (closeHour closeMinute defaultSize : Int)
    (bucket : Int → Int) (stored : List FRec) (stockDetail : String → Option Int)
    (now : Int) (entity : Entity) (tradeDay : List Int) : EvalResult :=
  let latestSavedRecord := (fc_get_latest_saved_record bucket stored).2
  let latestSavedTimestamp :=
    match latestSavedRecord with
    | some r => some r.timestamp
    | none => entity.timestamp
  match latestSavedTimestamp with
  | none =>
    { start := none, endTs := none, trade := tradeDay.head?,
      size := defaultSize, timestamps := none }
  | some lst =>
    let tradeIndex : Nat :=
      match tradeDay.head? with
      | some d0 =>
        if ext.countMinsBeforeCloseTime now closeHour closeMinute > 0
            ∧ ext.isSameDate d0 now
        then 1 else 0
      | none => 0
    let tradeIndex : Nat :=
      match stockDetail entity.id with
      | some endDate =>
        if ext.dateDelta now endDate > 0 then
          match tradeDay.indexOf? endDate with
          | some i => i
          | none => tradeIndex
        else tradeIndex
      | none => tradeIndex
    let size := ext.evaluateSizeFromTimestamp lst now (tradeDay.drop tradeIndex)
    { start := some lst, endTs := none, trade := tradeDay[tradeIndex]?,
      size := size, timestamps := none }

/-- `FixedCycleDataRecorder.evaluate_start_end_size_timestamps`. -/
def fc_evaluate (ext : FCExt) (closeHour closeMinute defaultSize : Int)
    (bucket : Int → Int) (stored : List FRec) (stockDetail : String → Option Int)
    (now : Int) (entity : Entity) (tradeDay : List Int) : EvalResult :=
  match entity.timestamp with
  | some listed =>
    if listed ≥ now then
      { start := some listed, endTs := none, trade := tradeDay.head?,
        size := 0, timestamps := none }
    else
      fc_evaluate_rest ext closeHour closeMinute defaultSize bucket stored
        stockDetail now entity tradeDay
  | none =>
    fc_evaluate_rest ext closeHour closeMinute defaultSize bucket stored
      stockDetail now entity tradeDay

/-- `TimestampsDataRecorder.evaluate_start_end_size_timestamps`.
`cache` is `security_timestamps_map.get(entity.id)` with `[]` for a
missing or empty entry (both are falsy in Python), `initTs` is the result
of `init_timestamps`, `latest` the newest persisted record's timestamp.
Returns the window result together with the updated memoized cache. -/
def tsd_evaluate (startTimestamp endTimestamp : Option Int)
    (cache initTs : List Int) (latest : Option Int) (tradeDay : List Int) :
    EvalResult × List Int :=
  let timestamps :=
    if cache.isEmpty then
      let t1 := initTs
      let t2 :=
        match startTimestamp with
        | some st => t1.filter (fun t => decide (st ≤ t))
        | none => t1
      match endTimestamp with
      | some et => t2.filter (fun t => decide (t ≤ et))
      | none => t2
    else cache
  let newCache := if cache.isEmpty then timestamps else cache
  if timestamps.isEmpty then
    ({ start := none, endTs := none, trade := tradeDay.head?,
       size := 0, timestamps := some timestamps }, newCache)
  else
    let sorted := timestamps.mergeSort (fun a b => decide (a ≤ b))
    match latest with
    | some lt =>
      let filtered := sorted.filter (fun t => decide (lt ≤ t))
      if filtered.isEmpty then
        ({ start := none, endTs := none, trade := tradeDay.head?,
           size := 0, timestamps := none }, newCache)
      else
        ({ start := filtered.head?, endTs := filtered.getLast?,
           trade := tradeDay.head?, size := (filtered.length : Int),
           timestamps := some filtered }, newCache)
    | none =>
      ({ start := sorted.head?, endTs := sorted.getLast?,
         trade := tradeDay.head?, size := (sorted.length : Int),
         timestamps := some sorted }, newCache)

/-- The first/last-timestamp computation of
`TimeSeriesDataRecorder.persist`: on a nonempty `domain_list` it compares
the timestamps at the first and last positions, swapping them when the
first is the larger; a `None` at either end makes the comparison raise,
and the `except` branch keeps the positional order.  Returns
`(first_timestamp, last_timestamp)` as logged. -/
def persist_first_last (tsList : List (Option Int)) : Option (Option Int × Option Int) :=
  match tsList with
  | [] => none
  | t0 :: rest =>
    let tl := rest.getLastD t0
    match t0, tl with
    | some a, some b =>
      if a ≥ b then some (some b, some a) else some (some a, some b)
    | _, _ => some (t0, tl)

/-! ### Sample fixtures used by witnesses and counterexamples -/

/-- A sample parse function standing for `to_pd_timestamp`: parses the
single literal `"7"`. -/
def parseFx : String → Option Int := fun s => if s = "7" then some 7 else none

/-- A sample entity. -/
def entFx : Entity := { id := "stock_sz_000001", code := "000001", name := "PA", timestamp := none }

/-- An empty persisted table. -/
def storeFx : RecId → Option DomainRecord := fun _ => none

/-- A sample reconciler configuration in `"add"` mode. -/
def cfgFx : RecConfig :=
  { forceUpdate := false, fixDuplicateWay := "add", hasNameColumn := false,
    parseTs := parseFx, timeStr := fun s => s }

/-- A sample reconciler configuration in `"ignore"` mode. -/
def cfgFxIgnore : RecConfig :=
  { forceUpdate := false, fixDuplicateWay := "ignore", hasNameColumn := false,
    parseTs := parseFx, timeStr := fun s => s }

/-- A sample reconciler configuration with force-update enabled. -/
def cfgFxForce : RecConfig :=
  { forceUpdate := true, fixDuplicateWay := "ignore", hasNameColumn := false,
    parseTs := parseFx, timeStr := fun s => s }

/-- A sample already-persisted record whose id derives from time string
`"7"`. -/
def recFx : DomainRecord :=
  { id := RecId.derived "stock_sz_000001" "7", code := "000001", name := none,
    entityId := "stock_sz_000001", timestamp := some 7, fields := [] }

/-- A one-row persisted table holding `recFx`. -/
def storeOneFx : RecId → Option DomainRecord :=
  fun i => if i == recFx.id then some recFx else none

/-! ### Claim theorems -/

/-- Claim C1, counterexample to the claim as stated: with real-time
tracking enabled, close time 15:58 and `now` = 16:04 — six minutes past
the close, beyond the 5-minute grace margin — `process_realtime` still
reports the entity as not finished, because the code compares only the
minute-of-hour fields (`now.minute - close_minute >= 5`). -/
theorem process_realtime_cex :
    process_realtime ⟨true, some 15, some 58⟩ true true 16 4 = false
    ∧ ((16 * 60 + 4 : Int) - (15 * 60 + 58)) = 6 ∧ (5 : Int) ≤ 6 := by
  decide

/-- Claim C1, amended: for an empty-or-all-duplicate fetch, real-time
disabled always finishes the entity; with real-time enabled and both
close fields configured, the entity is finished iff `close_hour ≤
now.hour` and `now.minute - close_minute ≥ 5` (a minute-of-hour test, not
elapsed time past the cutoff); finishing does imply being at least five
minutes past the cutoff — so one minute past close implies not finished —
but six minutes past close does not imply finished. -/
theorem process_realtime_spec (cfg : RTConfig) (oe ad : Bool) (nh nm ch cm : Int)
    (hguard : (oe || ad) = true) :
    (cfg.realTime = false → process_realtime cfg oe ad nh nm = true)
    ∧ (cfg.realTime = true → cfg.closeHour = some ch → cfg.closeMinute = some cm →
        ((process_realtime cfg oe ad nh nm = true ↔ (ch ≤ nh ∧ 5 ≤ nm - cm))
         ∧ (process_realtime cfg oe ad nh nm = true →
             5 ≤ (nh * 60 + nm) - (ch * 60 + cm)))) := by
  constructor
  · intro hrt
    simp [process_realtime, hguard, hrt]
  · intro hrt hch hcm
    have hres : process_realtime cfg oe ad nh nm =
        (if nh ≥ ch then (if nm - cm ≥ 5 then true else false) else false) := by
      simp [process_realtime, hguard, hrt, hch, hcm]
    constructor
    · rw [hres]
      split_ifs with h1 h2
      · simp; omega
      · simp; omega
      · simp; omega
    · rw [hres]
      split_ifs with h1 h2
      · intro _; omega
      · simp
      · simp

/-- Witness for `process_realtime_spec` at `close = 15:00`, `now =
15:06`. -/
theorem process_realtime_spec_witness :
    ((true || false) = true)
    ∧ (((⟨true, some 15, some 0⟩ : RTConfig).realTime = false →
          process_realtime ⟨true, some 15, some 0⟩ true false 15 6 = true)
       ∧ ((⟨true, some 15, some 0⟩ : RTConfig).realTime = true →
           (⟨true, some 15, some 0⟩ : RTConfig).closeHour = some 15 →
           (⟨true, some 15, some 0⟩ : RTConfig).closeMinute = some 0 →
           ((process_realtime ⟨true, some 15, some 0⟩ true false 15 6 = true
               ↔ ((15 : Int) ≤ 15 ∧ (5 : Int) ≤ 6 - 0))
            ∧ (process_realtime ⟨true, some 15, some 0⟩ true false 15 6 = true →
                (5 : Int) ≤ (15 * 60 + 6) - (15 * 60 + 0))))) :=
  ⟨by decide, process_realtime_spec ⟨true, some 15, some 0⟩ true false 15 6 15 0 (by decide)⟩

/-- Claim C4, counterexample to the claim as stated: with no end
timestamp configured, an entity listed at instant 0, `now` = minute 1000
of day 0, and a persisted record at minute 720 (noon of the same day),
the returned size is `-1`: the whole-day count between the effective
start and `now`'s midnight is negative, so the size is not bounded below
by 0. -/
theorem ts_evaluate_size_cex :
    (ts_evaluate ⟨none, none, 2000⟩ 1000 ⟨"e", "c", "n", some 0⟩ (some 720) []).size = -1
    ∧ (-1 : Int) < 0 := by
  decide

/-- Claim C4, amended: with a persisted record at `t` and the entity
listed before `now`, the effective start is `s = max(t, configuredStart)`
(or `t` with no configured start); if an end timestamp is configured and
`s` has reached it the size is 0; with no end configured the size is the
floor-day count from `s` to `now`'s midnight, which is nonnegative only
when `s` is at or before `now`'s midnight (it can be negative
otherwise). -/
theorem ts_evaluate_size_spec (cfg : TSConfig) (now listed t s : Int) (entity : Entity)
    (tradeDay : List Int)
    (hts : entity.timestamp = some listed) (hlt : listed < now)
    (hs : s = (match cfg.startTimestamp with | some st => max t st | none => t)) :
    (∀ et, cfg.endTimestamp = some et → et ≤ s →
        (ts_evaluate cfg now entity (some t) tradeDay).size = 0)
    ∧ (cfg.endTimestamp = none →
        (ts_evaluate cfg now entity (some t) tradeDay).size
            = (midnight now - s).fdiv minutesPerDay
        ∧ (s ≤ midnight now → 0 ≤ (ts_evaluate cfg now entity (some t) tradeDay).size)) := by
  have hnot : ¬ (listed ≥ now) := by omega
  constructor
  · intro et het hle
    rcases hst : cfg.startTimestamp with _ | st <;>
      simp only [hst] at hs <;> subst hs <;>
      simp [ts_evaluate, ts_evaluate_rest, hts, hnot, het, hst, ge_iff_le, hle]
  · intro hnone
    rcases hst : cfg.startTimestamp with _ | st <;>
      simp only [hst] at hs <;> subst hs <;>
      refine ⟨by simp [ts_evaluate, ts_evaluate_rest, hts, hnot, hnone, hst], ?_⟩ <;>
      intro hle <;>
      simp [ts_evaluate, ts_evaluate_rest, hts, hnot, hnone, hst] <;>
      exact Int.fdiv_nonneg (by omega) (by norm_num [minutesPerDay])

/-- Witness for `ts_evaluate_size_spec`: entity listed at 0, `now` =
minute 2880 (start of day 2), persisted record at minute 720, no
configured window; the size is one whole day. -/
theorem ts_evaluate_size_spec_witness :
    (Entity.mk "e" "c" "n" (some 0)).timestamp = some 0
    ∧ (0 : Int) < 2880
    ∧ (720 : Int) = (match (⟨none, none, 2000⟩ : TSConfig).startTimestamp with
                     | some st => max 720 st | none => 720)
    ∧ ((∀ et, (⟨none, none, 2000⟩ : TSConfig).endTimestamp = some et → et ≤ 720 →
          (ts_evaluate ⟨none, none, 2000⟩ 2880 (Entity.mk "e" "c" "n" (some 0)) (some 720) []).size = 0)
       ∧ ((⟨none, none, 2000⟩ : TSConfig).endTimestamp = none →
          (ts_evaluate ⟨none, none, 2000⟩ 2880 (Entity.mk "e" "c" "n" (some 0)) (some 720) []).size
              = (midnight 2880 - 720).fdiv minutesPerDay
          ∧ ((720 : Int) ≤ midnight 2880 →
              0 ≤ (ts_evaluate ⟨none, none, 2000⟩ 2880 (Entity.mk "e" "c" "n" (some 0)) (some 720) []).size))) :=
  ⟨rfl, by decide, by decide,
   ts_evaluate_size_spec ⟨none, none, 2000⟩ 2880 0 720 720 (Entity.mk "e" "c" "n" (some 0)) []
     rfl (by decide) (by decide)⟩

/-- Claim C5 (confirmed): on a descending persisted table whose two
most-recent records fall in the same calendar bucket, the fixed-cycle
`get_latest_saved_record` issues exactly one delete — of the more recent
record — and returns the older one as the anchor; with different buckets
it deletes nothing and returns the most recent record. -/
theorem fc_get_latest_saved_record_spec (bucket : Int → Int) (r0 r1 : FRec)
    (rest : List FRec) (hdesc : r1.timestamp ≤ r0.timestamp) :
    (bucket r0.timestamp = bucket r1.timestamp →
       fc_get_latest_saved_record bucket (r0 :: r1 :: rest) = ([r0], some r1)
       ∧ r1.timestamp ≤ r0.timestamp)
    ∧ (bucket r0.timestamp ≠ bucket r1.timestamp →
       fc_get_latest_saved_record bucket (r0 :: r1 :: rest) = ([], some r0)) := by
  constructor
  · intro h
    exact ⟨by simp [fc_get_latest_saved_record, is_in_same_interval, h], hdesc⟩
  · intro h
    simp [fc_get_latest_saved_record, is_in_same_interval, h]

/-- Witness for `fc_get_latest_saved_record_spec`: daily buckets, records
at minutes 800 and 500 of the same day. -/
theorem fc_get_latest_saved_record_spec_witness :
    (500 : Int) ≤ 800
    ∧ (((fun t => t.fdiv 1440) (800 : Int) = (fun t => t.fdiv 1440) (500 : Int) →
         fc_get_latest_saved_record (fun t => t.fdiv 1440) [⟨"a", 800⟩, ⟨"b", 500⟩]
             = ([⟨"a", 800⟩], some ⟨"b", 500⟩)
         ∧ (500 : Int) ≤ 800)
       ∧ ((fun t => t.fdiv 1440) (800 : Int) ≠ (fun t => t.fdiv 1440) (500 : Int) →
         fc_get_latest_saved_record (fun t => t.fdiv 1440) [⟨"a", 800⟩, ⟨"b", 500⟩]
             = ([], some ⟨"a", 800⟩))) :=
  ⟨by decide,
   fc_get_latest_saved_record_spec (fun t => t.fdiv 1440) ⟨"a", 800⟩ ⟨"b", 500⟩ [] (by decide)⟩

/-- Claim C6 (confirmed): when the listing timestamp is present and at or
after `now`, both the generic and the fixed-cycle window evaluations
return size 0 regardless of any other configuration. -/
theorem evaluate_listing_guard (cfg : TSConfig) (ext : FCExt)
    (closeHour closeMinute defaultSize : Int) (bucket : Int → Int)
    (stored : List FRec) (stockDetail : String → Option Int)
    (now : Int) (entity : Entity) (latestSaved : Option Int)
    (tradeDay : List Int) (listed : Int)
    (hts : entity.timestamp = some listed) (hge : listed ≥ now) :
    (ts_evaluate cfg now entity latestSaved tradeDay).size = 0
    ∧ (fc_evaluate ext closeHour closeMinute defaultSize bucket stored
        stockDetail now entity tradeDay).size = 0 := by
  constructor
  · simp [ts_evaluate, hts, hge]
  · simp [fc_evaluate, hts, hge]

/-- Witness for `evaluate_listing_guard`: an entity listed at instant 10
evaluated at `now` = 5. -/
theorem evaluate_listing_guard_witness :
    (Entity.mk "e" "c" "n" (some 10)).timestamp = some 10
    ∧ (10 : Int) ≥ 5
    ∧ ((ts_evaluate ⟨none, none, 2000⟩ 5 (Entity.mk "e" "c" "n" (some 10)) none []).size = 0
       ∧ (fc_evaluate ⟨fun _ _ _ => 0, fun _ _ => false, fun _ _ => 0, fun _ _ _ => 0⟩
            0 0 2000 (fun t => t) [] (fun _ => none) 5
            (Entity.mk "e" "c" "n" (some 10)) []).size = 0) :=
  ⟨rfl, by decide,
   evaluate_listing_guard ⟨none, none, 2000⟩
     ⟨fun _ _ _ => 0, fun _ _ => false, fun _ _ => 0, fun _ _ _ => 0⟩
     0 0 2000 (fun t => t) [] (fun _ => none) 5
     (Entity.mk "e" "c" "n" (some 10)) none [] 10 rfl (by decide)⟩

/-- Claim C8, counterexample to the claim as stated: for the batch with
timestamps `[5, 1, 7]` the persist step reports the interval `[5, 7]`,
but the actual minimum over the batch is 1 — the reported first timestamp
is not the batch-wide minimum, only the smaller of the two positional
endpoints. -/
theorem persist_first_last_cex :
    persist_first_last [some 5, some 1, some 7] = some (some 5, some 7)
    ∧ min (5 : Int) (min 1 7) = 1 ∧ (some (5 : Int) : Option Int) ≠ some 1 := by
  decide

/-- Claim C8, amended: for a nonempty batch whose first and last
positions carry timestamps `a` and `b`, the reported first/last
timestamps are `min a b` and `max a b` — the order-normalized positional
endpoints, not the minimum and maximum over all records of the batch. -/
theorem persist_first_last_spec (a b : Int) (rest : List (Option Int))
    (h : rest.getLastD (some a) = some b) :
    persist_first_last (some a :: rest) = some (some (min a b), some (max a b)) := by
  simp only [persist_first_last, h]
  split_ifs with hab
  · simp [min_eq_right (by omega : b ≤ a), max_eq_left (by omega : b ≤ a)]
  · simp [min_eq_left (by omega : a ≤ b), max_eq_right (by omega : a ≤ b)]

/-- Witness for `persist_first_last_spec` on the batch `[5, 1, 7]`. -/
theorem persist_first_last_spec_witness :
    ([some 1, some 7] : List (Option Int)).getLastD (some 5) = some 7
    ∧ persist_first_last [some 5, some 1, some 7]
        = some (some (min 5 7), some (max 5 7)) :=
  ⟨by decide, persist_first_last_spec 5 7 [some 1, some 7] (by decide)⟩

/-- No `RecId` equals its own suffixed extension. -/
theorem recId_ne_suffixed : ∀ (i : RecId) (t : Nat), i ≠ RecId.suffixed i t := by
  intro i
  induction i with
  | derived e s => intro t h; exact RecId.noConfusion h
  | suffixed o t2 ih =>
    intro t h
    injection h with h1 h2
    exact ih t2 h1

/-- Loop invariant of `process_duplicate`: whenever the loop runs to
completion (no abort), the returned `all_duplicated` flag is the initial
flag conjoined with "no processed item produced new data". -/
theorem pdLoop_allDup (cfg : RecConfig) (store : RecId → Option DomainRecord)
    (entity : Entity) :
    ∀ (l : List RawInput) (acc : List DomainRecord) (ad : Bool) (tok : Nat),
      (pdLoop cfg store entity l acc ad tok).1 = false →
      (pdLoop cfg store entity l acc ad tok).2.1
        = (ad && l.all (fun od => !(generate_domain cfg store entity od).1)) := by
  intro l
  induction l with
  | nil =>
    intro acc ad tok _
    simp [pdLoop]
  | cons od rest ih =>
    intro acc ad tok hfin
    rcases hgd : generate_domain cfg store entity od with ⟨g, item?⟩
    cases item? with
    | none =>
      simp only [pdLoop, hgd] at hfin ⊢
      rw [ih _ _ _ hfin]
      cases g <;> simp [hgd]
    | some d =>
      simp only [pdLoop, hgd] at hfin ⊢
      by_cases hdup : (acc.filter (fun item => item.id == d.id)).isEmpty = true
      · simp only [hdup, Bool.not_true, Bool.false_eq_true, if_false] at hfin ⊢
        rw [ih _ _ _ hfin]
        cases g <;> simp [hgd]
      · by_cases hmode : cfg.fixDuplicateWay = "add"
        · simp [hdup, hmode] at hfin ⊢
          rw [ih _ _ _ hfin]
          cases g <;> simp [hgd]
        · simp [hdup, hmode] at hfin

/-- Claim C3, counterexample to the claim as stated: on an empty batch
`process_duplicate` reports `all_duplicated = true` (the flag is
initialized to `True` and the loop body never runs), not `false` as the
claim requires. -/
theorem process_duplicate_empty_cex :
    (process_duplicate cfgFx storeFx entFx []).2.1 = true ∧ true ≠ false := by
  decide

/-- Claim C3, amended: whenever the batch is not aborted by a
within-batch id collision, `all_duplicated = true` iff no processed
record was counted as new — vacuously true for an empty batch (not
false). -/
theorem process_duplicate_allDup_spec (cfg : RecConfig)
    (store : RecId → Option DomainRecord) (entity : Entity) (l : List RawInput)
    (hfin : (process_duplicate cfg store entity l).1 = false) :
    ((process_duplicate cfg store entity l).2.1 = true
      ↔ ∀ od ∈ l, (generate_domain cfg store entity od).1 = false) := by
  by_cases hl : l.isEmpty = true
  · have hl' : l = [] := List.isEmpty_iff.mp hl
    subst hl'
    simp [process_duplicate]
  · have hpd : process_duplicate cfg store entity l = pdLoop cfg store entity l [] true 0 := by
      simp [process_duplicate, hl]
    rw [hpd] at hfin ⊢
    rw [pdLoop_allDup cfg store entity l [] true 0 hfin]
    simp [List.all_eq_true]

/-- Witness for `process_duplicate_allDup_spec`: a singleton batch of one
genuinely new record; the loop completes and the flag is false. -/
theorem process_duplicate_allDup_spec_witness :
    ((process_duplicate cfgFx storeFx entFx [RawInput.raw ⟨"7", []⟩]).1 = false)
    ∧ ((process_duplicate cfgFx storeFx entFx [RawInput.raw ⟨"7", []⟩]).2.1 = true
        ↔ ∀ od ∈ [RawInput.raw (⟨"7", []⟩ : RawPayload)],
            (generate_domain cfgFx storeFx entFx od).1 = false) :=
  ⟨by decide, process_duplicate_allDup_spec cfgFx storeFx entFx _ (by decide)⟩

/-- Claim C2, counterexample to the claim as stated: two fresh payloads
deriving the same id under mode `"ignore"` abort the batch
(`entity_finished = true`, nothing persisted), but the reported
`all_duplicated` flag is `false` — not `true` as the claim requires —
because the first colliding record counted as new before the abort. -/
theorem process_duplicate_abort_cex :
    (process_duplicate cfgFxIgnore storeFx entFx
        [RawInput.raw ⟨"7", []⟩, RawInput.raw ⟨"7", [("a", "b")]⟩]).1 = true
    ∧ (process_duplicate cfgFxIgnore storeFx entFx
        [RawInput.raw ⟨"7", []⟩, RawInput.raw ⟨"7", [("a", "b")]⟩]).2.1 = false
    ∧ (process_duplicate cfgFxIgnore storeFx entFx
        [RawInput.raw ⟨"7", []⟩, RawInput.raw ⟨"7", [("a", "b")]⟩]).2.2 = [] := by
  decide

/-- Claim C2, amended: for two fresh payloads deriving the same id, mode
`"add"` persists both with distinct ids (the second id gets a fresh
unique suffix); any other mode aborts the batch immediately with zero
records persisted — but the abort reports the `all_duplicated` flag
accumulated so far, which here is `false`, not `true`. -/
theorem process_duplicate_collision_spec (cfg : RecConfig)
    (store : RecId → Option DomainRecord) (entity : Entity) (p1 p2 : RawPayload)
    (hcol : generate_domain_id cfg entity p1 = generate_domain_id cfg entity p2)
    (hnew : store (generate_domain_id cfg entity p2) = none) :
    (cfg.fixDuplicateWay = "add" →
       (process_duplicate cfg store entity [RawInput.raw p1, RawInput.raw p2]).1 = false
       ∧ (process_duplicate cfg store entity [RawInput.raw p1, RawInput.raw p2]).2.2.length = 2
       ∧ ((process_duplicate cfg store entity [RawInput.raw p1, RawInput.raw p2]).2.2.map
            DomainRecord.id).Nodup)
    ∧ (cfg.fixDuplicateWay ≠ "add" →
       process_duplicate cfg store entity [RawInput.raw p1, RawInput.raw p2]
           = (true, false, [])) := by
  constructor
  · intro hadd
    refine ⟨?_, ?_, ?_⟩ <;>
      simp [process_duplicate, pdLoop, generate_domain, fill_domain_from_dict,
            hcol, hnew, hadd, List.nodup_cons, recId_ne_suffixed]
  · intro hmode
    simp [process_duplicate, pdLoop, generate_domain, fill_domain_from_dict,
          hcol, hnew, hmode]

/-- Witness for `process_duplicate_collision_spec`: two fresh payloads
with the same time string under the `"add"` configuration and the
`"ignore"` configuration share the hypotheses (same derived id, id not in
the store). -/
theorem process_duplicate_collision_spec_witness :
    (generate_domain_id cfgFx entFx ⟨"7", []⟩ = generate_domain_id cfgFx entFx ⟨"7", [("a", "b")]⟩)
    ∧ (storeFx (generate_domain_id cfgFx entFx ⟨"7", [("a", "b")]⟩) = none)
    ∧ ((cfgFx.fixDuplicateWay = "add" →
         (process_duplicate cfgFx storeFx entFx
            [RawInput.raw ⟨"7", []⟩, RawInput.raw ⟨"7", [("a", "b")]⟩]).1 = false
         ∧ (process_duplicate cfgFx storeFx entFx
            [RawInput.raw ⟨"7", []⟩, RawInput.raw ⟨"7", [("a", "b")]⟩]).2.2.length = 2
         ∧ ((process_duplicate cfgFx storeFx entFx
            [RawInput.raw ⟨"7", []⟩, RawInput.raw ⟨"7", [("a", "b")]⟩]).2.2.map
              DomainRecord.id).Nodup)
       ∧ (cfgFx.fixDuplicateWay ≠ "add" →
         process_duplicate cfgFx storeFx entFx
            [RawInput.raw ⟨"7", []⟩, RawInput.raw ⟨"7", [("a", "b")]⟩]
             = (true, false, []))) :=
  ⟨rfl, rfl,
   process_duplicate_collision_spec cfgFx storeFx entFx ⟨"7", []⟩ ⟨"7", [("a", "b")]⟩ rfl rfl⟩

/-- Claim C9, counterexample to the claim as stated: a payload whose time
field fails to parse is not skipped — the batch of one such payload
persists exactly one record, carrying a null timestamp. -/
theorem generate_domain_parse_fail_cex :
    parseFx "bad" = none
    ∧ ((process_duplicate cfgFx storeFx entFx [RawInput.raw ⟨"bad", []⟩]).2.2).length = 1
    ∧ ((process_duplicate cfgFx storeFx entFx [RawInput.raw ⟨"bad", []⟩]).2.2.map
        DomainRecord.timestamp) = [none] := by
  decide

/-- Claim C9, amended: on a timestamp parse failure the error is logged
and the batch continues, but the record is not skipped: it is constructed
with a null timestamp, counted as new, and handed on to be persisted. -/
theorem generate_domain_parse_fail_spec (cfg : RecConfig)
    (store : RecId → Option DomainRecord) (entity : Entity) (p : RawPayload)
    (hparse : cfg.parseTs p.timeField = none)
    (hstore : store (generate_domain_id cfg entity p) = none) :
    (generate_domain cfg store entity (RawInput.raw p)).1 = true
    ∧ ((generate_domain cfg store entity (RawInput.raw p)).2.map DomainRecord.timestamp)
        = some none
    ∧ ∀ rest, process_duplicate cfg store entity (RawInput.raw p :: rest)
        = pdLoop cfg store entity rest
            [{ id := generate_domain_id cfg entity p, code := entity.code,
               name := if cfg.hasNameColumn then some entity.name else none,
               entityId := entity.id, timestamp := none, fields := p.fields }]
            false 0 := by
  refine ⟨?_, ?_, ?_⟩
  · simp [generate_domain, hstore]
  · simp [generate_domain, fill_domain_from_dict, hstore, hparse]
  · intro rest
    simp [process_duplicate, pdLoop, generate_domain, fill_domain_from_dict, hstore, hparse]

/-- Witness for `generate_domain_parse_fail_spec` on the unparsable time
field `"bad"` against an empty store. -/
theorem generate_domain_parse_fail_spec_witness :
    (cfgFx.parseTs ("bad" : String) = none)
    ∧ (storeFx (generate_domain_id cfgFx entFx ⟨"bad", []⟩) = none)
    ∧ ((generate_domain cfgFx storeFx entFx (RawInput.raw ⟨"bad", []⟩)).1 = true
       ∧ ((generate_domain cfgFx storeFx entFx (RawInput.raw ⟨"bad", []⟩)).2.map
            DomainRecord.timestamp) = some none
       ∧ ∀ rest, process_duplicate cfgFx storeFx entFx (RawInput.raw ⟨"bad", []⟩ :: rest)
           = pdLoop cfgFx storeFx entFx rest
               [{ id := generate_domain_id cfgFx entFx ⟨"bad", []⟩, code := entFx.code,
                  name := if cfgFx.hasNameColumn then some entFx.name else none,
                  entityId := entFx.id, timestamp := none, fields := [] }]
               false 0) :=
  ⟨by decide, rfl,
   generate_domain_parse_fail_spec cfgFx storeFx entFx ⟨"bad", []⟩ (by decide) rfl⟩

/-- Loop invariant for a force-update cycle: when every payload's derived
id is already in the store, the ids are pairwise distinct and disjoint
from the accumulator, the loop completes with `all_duplicated` still true
and appends each existing record overlaid with its payload's fields. -/
theorem pdLoop_force_update (cfg : RecConfig) (store : RecId → Option DomainRecord)
    (entity : Entity) (ex : RawPayload → DomainRecord)
    (hforce : cfg.forceUpdate = true) :
    ∀ (l : List RawPayload) (acc : List DomainRecord) (tok : Nat),
      (∀ p ∈ l, store (generate_domain_id cfg entity p) = some (ex p)) →
      (∀ p ∈ l, (ex p).id = generate_domain_id cfg entity p) →
      (∀ p ∈ l, ∀ r ∈ acc, r.id ≠ generate_domain_id cfg entity p) →
      (l.map (generate_domain_id cfg entity)).Nodup →
      pdLoop cfg store entity (l.map RawInput.raw) acc true tok
        = (false, true, acc ++ l.map (fun p => fill_domain_from_dict (ex p) p)) := by
  intro l
  induction l with
  | nil => intro acc tok _ _ _ _; simp [pdLoop]
  | cons p rest ih =>
    intro acc tok hstore hid hacc hnodup
    have hst : store (generate_domain_id cfg entity p) = some (ex p) := hstore p (by simp)
    have hfid : (fill_domain_from_dict (ex p) p).id = generate_domain_id cfg entity p := by
      simp [fill_domain_from_dict]
      exact hid p (by simp)
    have hfilter : acc.filter
        (fun item => item.id == (fill_domain_from_dict (ex p) p).id) = [] := by
      rw [List.filter_eq_nil_iff]
      intro r hr
      simp only [hfid, beq_iff_eq]
      exact hacc p (by simp) r hr
    have hgd : generate_domain cfg store entity (RawInput.raw p)
        = (false, some (fill_domain_from_dict (ex p) p)) := by
      simp [generate_domain, hst, hforce]
    have hnodup' : (rest.map (generate_domain_id cfg entity)).Nodup := by
      rw [List.map_cons, List.nodup_cons] at hnodup
      exact hnodup.2
    have hmem : generate_domain_id cfg entity p ∉ rest.map (generate_domain_id cfg entity) := by
      rw [List.map_cons, List.nodup_cons] at hnodup
      exact hnodup.1
    have hacc' : ∀ q ∈ rest, ∀ r ∈ acc ++ [fill_domain_from_dict (ex p) p],
        r.id ≠ generate_domain_id cfg entity q := by
      intro q hq r hr
      rcases List.mem_append.mp hr with hr | hr
      · exact hacc q (by simp [hq]) r hr
      · have hreq : r = fill_domain_from_dict (ex p) p := by simpa using hr
        subst hreq
        rw [hfid]
        intro h
        apply hmem
        rw [h]
        exact List.mem_map_of_mem _ hq
    have hrec := ih (acc ++ [fill_domain_from_dict (ex p) p]) tok
        (fun q hq => hstore q (by simp [hq]))
        (fun q hq => hid q (by simp [hq]))
        hacc' hnodup'
    simp only [List.map_cons, pdLoop, hgd, hfilter]
    simp [hrec]

/-- Claim C10 (confirmed): with force-update enabled and every payload's
derived id already present in the store (distinct ids within the batch),
each existing record is overlaid with the payload's fields and handed to
`persist`, yet the batch is reported as `all_duplicated = true` — so the
completion detector's "could not get more data" test
(`not original_list or all_duplicated`) holds even though writes
occurred. -/
theorem process_duplicate_force_update_spec (cfg : RecConfig)
    (store : RecId → Option DomainRecord) (entity : Entity)
    (ex : RawPayload → DomainRecord) (ps : List RawPayload)
    (hne : ps ≠ [])
    (hforce : cfg.forceUpdate = true)
    (hstore : ∀ p ∈ ps, store (generate_domain_id cfg entity p) = some (ex p))
    (hid : ∀ p ∈ ps, (ex p).id = generate_domain_id cfg entity p)
    (hnodup : (ps.map (generate_domain_id cfg entity)).Nodup) :
    process_duplicate cfg store entity (ps.map RawInput.raw)
        = (false, true, ps.map (fun p => fill_domain_from_dict (ex p) p))
    ∧ ((ps.map RawInput.raw).isEmpty
        || (process_duplicate cfg store entity (ps.map RawInput.raw)).2.1) = true := by
  have hmain := pdLoop_force_update cfg store entity ex hforce ps [] 0 hstore hid
      (by intro q _ r hr; simp at hr) hnodup
  have hne' : (ps.map RawInput.raw).isEmpty = false := by
    cases ps with
    | nil => exact absurd rfl hne
    | cons a l => simp
  have h1 : process_duplicate cfg store entity (ps.map RawInput.raw)
      = (false, true, ps.map (fun p => fill_domain_from_dict (ex p) p)) := by
    simp only [List.nil_append] at hmain
    simpa [process_duplicate, hne'] using hmain
  exact ⟨h1, by simp [h1]⟩

/-- Witness for `process_duplicate_force_update_spec`: a one-payload
batch whose derived id is already stored as `recFx`, under the
force-update configuration. -/
theorem process_duplicate_force_update_spec_witness :
    ([(⟨"7", []⟩ : RawPayload)] ≠ [])
    ∧ cfgFxForce.forceUpdate = true
    ∧ (∀ p ∈ [(⟨"7", []⟩ : RawPayload)],
        storeOneFx (generate_domain_id cfgFxForce entFx p) = some recFx)
    ∧ (∀ p ∈ [(⟨"7", []⟩ : RawPayload)], recFx.id = generate_domain_id cfgFxForce entFx p)
    ∧ ([(⟨"7", []⟩ : RawPayload)].map (generate_domain_id cfgFxForce entFx)).Nodup
    ∧ (process_duplicate cfgFxForce storeOneFx entFx [RawInput.raw ⟨"7", []⟩]
         = (false, true, [fill_domain_from_dict recFx ⟨"7", []⟩])
       ∧ (([RawInput.raw (⟨"7", []⟩ : RawPayload)]).isEmpty
           || (process_duplicate cfgFxForce storeOneFx entFx [RawInput.raw ⟨"7", []⟩]).2.1)
           = true) :=
  ⟨by decide, by decide, by decide, by decide, by decide,
   process_duplicate_force_update_spec cfgFxForce storeOneFx entFx (fun _ => recFx)
     [⟨"7", []⟩] (by decide) (by decide) (by decide) (by decide) (by decide)⟩

/-- Claim C7 (confirmed): under the explicit-timestamp policy with a
non-empty memoized cache and a latest persisted record at `lt`, the cycle
re-filters the cached list to timestamps at or after `lt`; the returned
size is the count of remaining timestamps, the filtered (sorted) list is
carried as the `timestamps` component when non-empty, and an empty
filtered list yields size 0. -/
theorem tsd_evaluate_spec (st et : Option Int) (cache initTs tradeDay : List Int)
    (lt : Int) (hc : cache ≠ []) :
    ((tsd_evaluate st et cache initTs (some lt) tradeDay).1.size
       = ((cache.filter (fun t => decide (lt ≤ t))).length : Int))
    ∧ ((tsd_evaluate st et cache initTs (some lt) tradeDay).1.timestamps
       = (if ((cache.mergeSort (fun a b => decide (a ≤ b))).filter
              (fun t => decide (lt ≤ t))).isEmpty
          then none
          else some ((cache.mergeSort (fun a b => decide (a ≤ b))).filter
              (fun t => decide (lt ≤ t)))))
    ∧ (((cache.mergeSort (fun a b => decide (a ≤ b))).filter (fun t => decide (lt ≤ t))) = []
        → (tsd_evaluate st et cache initTs (some lt) tradeDay).1.size = 0) := by
  have hce : cache.isEmpty = false := by
    cases cache with
    | nil => exact absurd rfl hc
    | cons a l => simp
  have hlen : ((cache.mergeSort (fun a b => decide (a ≤ b))).filter
      (fun t => decide (lt ≤ t))).length
      = (cache.filter (fun t => decide (lt ≤ t))).length :=
    ((List.mergeSort_perm cache _).filter _).length_eq
  by_cases hf : ((cache.mergeSort (fun a b => decide (a ≤ b))).filter
      (fun t => decide (lt ≤ t))).isEmpty = true
  · have hf' : (cache.mergeSort (fun a b => decide (a ≤ b))).filter
        (fun t => decide (lt ≤ t)) = [] := List.isEmpty_iff.mp hf
    refine ⟨?_, ?_, ?_⟩
    · rw [← hlen, hf']
      simp [tsd_evaluate, hce, hf]
    · simp [tsd_evaluate, hce, hf]
    · intro _
      simp [tsd_evaluate, hce, hf]
  · refine ⟨?_, ?_, ?_⟩
    · rw [← hlen]
      simp [tsd_evaluate, hce, hf]
    · simp [tsd_evaluate, hce, hf]
    · intro h
      rw [h] at hf
      simp at hf

/-- Witness for `tsd_evaluate_spec` on the cached list `[3, 9]` with the
latest persisted record at 5. -/
theorem tsd_evaluate_spec_witness :
    (([3, 9] : List Int) ≠ [])
    ∧ (((tsd_evaluate none none [3, 9] [] (some 5) []).1.size
          = ((([3, 9] : List Int).filter (fun t => decide (5 ≤ t))).length : Int))
       ∧ ((tsd_evaluate none none [3, 9] [] (some 5) []).1.timestamps
          = (if ((([3, 9] : List Int).mergeSort (fun a b => decide (a ≤ b))).filter
                 (fun t => decide (5 ≤ t))).isEmpty
             then none
             else some ((([3, 9] : List Int).mergeSort (fun a b => decide (a ≤ b))).filter
                 (fun t => decide (5 ≤ t)))))
       ∧ (((([3, 9] : List Int).mergeSort (fun a b => decide (a ≤ b))).filter
             (fun t => decide (5 ≤ t))) = []
           → (tsd_evaluate none none [3, 9] [] (some 5) []).1.size = 0)) :=
  ⟨by decide, tsd_evaluate_spec none none [3, 9] [] [] 5 (by decide)⟩
